import Mathlib

/-! Verification of the scrcpy display/presentation pipeline (`app/src/screen.c`).

This file gives a shallow embedding of the geometry engine, the coordinate
mapper, the frame-sink endpoints and the window-state bookkeeping of
`screen.c`, and proves the stated properties about them.

Conventions of the embedding:
* `struct sc_size` holds `uint16_t` values; all size arithmetic in the C code
  is carried out on non-negative integers, so sizes are embedded as `Nat` and
  the C integer division on non-negative operands is exactly `Nat` division
  (floor division).
* Signed quantities (`struct sc_point`, `SDL_Rect` fields, frame coordinates)
  are embedded as `Int`.  C `/` on `int` truncates toward zero, which is
  `Int.tdiv`; the embedding uses `Int.tdiv` wherever the C code divides
  signed values.
* External effects (SDL window queries, the display-bounds query, texture
  uploads, the event queue) are passed in explicitly as parameters or model
  fields; allocation failures are outside the model.
-/

namespace Scrcpy

/-- Embedding of `struct sc_size` from `coords.h`: width and height (`uint16_t` values). -/
structure sc_size where
  width : Nat
  height : Nat
deriving DecidableEq, Repr

/-- Embedding of `struct sc_point` from `coords.h`: signed coordinates. -/
structure sc_point where
  x : Int
  y : Int
deriving DecidableEq, Repr

/-- Embedding of `SDL_Rect`: the content rectangle stored in `screen->rect` (int fields). -/
structure SDL_Rect where
  x : Int
  y : Int
  w : Int
  h : Int
deriving DecidableEq, Repr

/-- Embedding of `enum sc_orientation`: 8 values, {0°,90°,180°,270°} × {plain, mirrored}. -/
inductive sc_orientation where
  | SC_ORIENTATION_0
  | SC_ORIENTATION_90
  | SC_ORIENTATION_180
  | SC_ORIENTATION_270
  | SC_ORIENTATION_FLIP_0
  | SC_ORIENTATION_FLIP_90
  | SC_ORIENTATION_FLIP_180
  | SC_ORIENTATION_FLIP_270
deriving DecidableEq, Repr

/-- Modelled from the spec: `sc_orientation_is_swap` (defined in `options.h`,
not part of the provided sources).  The spec: width/height swap for "the four
rotated variants", i.e. the 90° and 270° rotations and their mirrors. -/
def sc_orientation_is_swap : sc_orientation → Bool
  | .SC_ORIENTATION_90 => true
  | .SC_ORIENTATION_270 => true
  | .SC_ORIENTATION_FLIP_90 => true
  | .SC_ORIENTATION_FLIP_270 => true
  | _ => false

/-- Embedding of `get_oriented_size` (screen.c): swap width/height iff the orientation is a
swap variant. -/
def get_oriented_size (size : sc_size) (orientation : sc_orientation) :
    sc_size :=
  if sc_orientation_is_swap orientation then
    ⟨size.height, size.width⟩
  else
    ⟨size.width, size.height⟩

/-- Embedding of `is_optimal_size` (screen.c): the size is optimal if one dimension of the
current size can be recomputed from the other via the content aspect ratio.
The C divisions are on non-negative `int` values, hence floor division. -/
def is_optimal_size (current_size content_size : sc_size) : Bool :=
  current_size.height ==
      current_size.width * content_size.height / content_size.width
  || current_size.width ==
      current_size.height * content_size.width / content_size.height

/-- Embedding of `get_optimal_size` (screen.c).  The display-bounds query
(`get_preferred_display_bounds`) is an SDL call that can fail; it is passed in
as `display_bounds : Option sc_size` (`none` models query failure).  The code
skips the clamp when `within_display_bounds` is false or the query fails. -/
def get_optimal_size (current_size content_size : sc_size)
    (within_display_bounds : Bool) (display_bounds : Option sc_size) :
    sc_size :=
  if content_size.width = 0 ∨ content_size.height = 0 then
    -- avoid division by 0
    current_size
  else
    let window_size : sc_size :=
      match within_display_bounds, display_bounds with
      | true, some db =>
          ⟨min current_size.width db.width, min current_size.height db.height⟩
      | _, _ => current_size
    if is_optimal_size window_size content_size then
      window_size
    else
      if content_size.width * window_size.height >
          content_size.height * window_size.width then
        -- keep width: remove black borders on top and bottom
        ⟨window_size.width,
         content_size.height * window_size.width / content_size.width⟩
      else
        -- keep height: remove black borders on left and right
        ⟨content_size.width * window_size.height / content_size.height,
         window_size.height⟩

/-- Embedding of `get_initial_optimal_size` (screen.c), total version used by the screen
model.  `req_width`/`req_height` are `uint16_t` (0 means "not requested").
The divisions by `content_size.height` / `content_size.width` have no zero
guard in the C code; here `Nat` division returns 0 in that case (see
`get_initial_optimal_size_checked` for the embedding that flags it). -/
def get_initial_optimal_size (content_size : sc_size)
    (req_width req_height : Nat) (display_bounds : Option sc_size) : sc_size :=
  if req_width = 0 ∧ req_height = 0 then
    get_optimal_size content_size content_size true display_bounds
  else
    ⟨if req_width ≠ 0 then req_width
     else req_height * content_size.width / content_size.height,
     if req_height ≠ 0 then req_height
     else req_width * content_size.height / content_size.width⟩

/-- Embedding of `get_initial_optimal_size` with the unguarded divisions made explicit:
`none` exactly when the C code would divide by zero (a requested width or
height must be derived from the other via a zero content dimension). -/
def get_initial_optimal_size_checked (content_size : sc_size)
    (req_width req_height : Nat) (display_bounds : Option sc_size) :
    Option sc_size :=
  if req_width = 0 ∧ req_height = 0 then
    some (get_optimal_size content_size content_size true display_bounds)
  else if req_width = 0 ∧ content_size.height = 0 then
    none  -- division by content_size.height with no zero guard
  else if req_height = 0 ∧ content_size.width = 0 then
    none  -- division by content_size.width with no zero guard
  else
    some (get_initial_optimal_size content_size req_width req_height
            display_bounds)

/-- Embedding of `sc_screen_update_content_rect` (screen.c) as a pure function of the
render output size and the content size.  All intermediate values of the C
code are non-negative whenever the function is free of division by zero
(i.e. whenever both content dimensions are positive — `is_optimal_size`
divides by both of them first), so the arithmetic is carried out on `Nat`:
in the keep-width branch `rect->h < render_size.height`, and in the
keep-height branch `rect->w ≤ render_size.width`, so the `Nat` subtractions
agree with the C `int` subtractions (proved in `content_rect_h_lt` and
`content_rect_w_le` below). -/
def sc_screen_update_content_rect (render_size content_size : sc_size) :
    SDL_Rect :=
  if is_optimal_size render_size content_size then
    ⟨0, 0, (render_size.width : Int), (render_size.height : Int)⟩
  else if content_size.width * render_size.height >
      content_size.height * render_size.width then
    -- keep width
    let h : Nat := render_size.width * content_size.height / content_size.width
    ⟨0, ((render_size.height - h) / 2 : Nat),
     (render_size.width : Int), (h : Int)⟩
  else
    -- keep height
    let w : Nat := render_size.height * content_size.width / content_size.height
    ⟨((render_size.width - w) / 2 : Nat), 0,
     (w : Int), (render_size.height : Int)⟩

/-- The orientation `switch` at the end of
`sc_screen_convert_drawable_to_frame_coords` (screen.c): a fixed
permutation/reflection of `(x, y)` against the oriented content dimensions
`(w, h)`. -/
def sc_frame_coords_transform (orientation : sc_orientation) (w h x y : Int) :
    sc_point :=
  match orientation with
  | .SC_ORIENTATION_0 => ⟨x, y⟩
  | .SC_ORIENTATION_90 => ⟨y, w - x⟩
  | .SC_ORIENTATION_180 => ⟨w - x, h - y⟩
  | .SC_ORIENTATION_270 => ⟨h - y, x⟩
  | .SC_ORIENTATION_FLIP_0 => ⟨w - x, y⟩
  | .SC_ORIENTATION_FLIP_90 => ⟨h - y, w - x⟩
  | .SC_ORIENTATION_FLIP_180 => ⟨x, h - y⟩
  | .SC_ORIENTATION_FLIP_270 => ⟨y, x⟩

/-- The rect-to-content scaling step of
`sc_screen_convert_drawable_to_frame_coords`:
`x = (int64_t) (x - rect.x) * w / rect.w` and likewise for `y`.  The C
division is on `int64_t`, truncating toward zero, i.e. `Int.tdiv`. -/
def sc_drawable_to_content_scale (content_size : sc_size) (rect : SDL_Rect)
    (x y : Int) : sc_point :=
  ⟨((x - rect.x) * (content_size.width : Int)).tdiv rect.w,
   ((y - rect.y) * (content_size.height : Int)).tdiv rect.h⟩

/-- Embedding of `sc_screen_convert_drawable_to_frame_coords` (screen.c): scale the
drawable point into content coordinates, then apply the orientation
transform.  The relevant screen state (`screen->orientation`,
`screen->content_size`, `screen->rect`) is passed explicitly. -/
def sc_screen_convert_drawable_to_frame_coords
    (orientation : sc_orientation) (content_size : sc_size) (rect : SDL_Rect)
    (x y : Int) : sc_point :=
  let p := sc_drawable_to_content_scale content_size rect x y
  sc_frame_coords_transform orientation (content_size.width : Int)
    (content_size.height : Int) p.x p.y

/-- The inverse of `sc_frame_coords_transform` for each orientation (the
"inverse orientation transform" of the spec): solves the forward equations
for `(x, y)`. -/
def sc_frame_coords_transform_inv (orientation : sc_orientation)
    (w h : Int) (p : sc_point) : sc_point :=
  match orientation with
  | .SC_ORIENTATION_0 => ⟨p.x, p.y⟩
  | .SC_ORIENTATION_90 => ⟨w - p.y, p.x⟩
  | .SC_ORIENTATION_180 => ⟨w - p.x, h - p.y⟩
  | .SC_ORIENTATION_270 => ⟨p.y, h - p.x⟩
  | .SC_ORIENTATION_FLIP_0 => ⟨w - p.x, p.y⟩
  | .SC_ORIENTATION_FLIP_90 => ⟨w - p.y, h - p.x⟩
  | .SC_ORIENTATION_FLIP_180 => ⟨p.x, h - p.y⟩
  | .SC_ORIENTATION_FLIP_270 => ⟨p.y, p.x⟩

/-- The inverse of the rect-to-content scaling step: maps a content-space
point back to drawable space (`x * rect.w / w + rect.x`, truncating
division), used to state the full drawable round trip. -/
def sc_content_to_drawable_scale (content_size : sc_size) (rect : SDL_Rect)
    (p : sc_point) : sc_point :=
  ⟨(p.x * rect.w).tdiv (content_size.width : Int) + rect.x,
   (p.y * rect.h).tdiv (content_size.height : Int) + rect.y⟩

/-! Screen state model

The frame hand-off, pause/resume and pending-resize logic of `screen.c` is
stateful; the state fields referenced by the claims are embedded below.
External inputs read during an operation (the SDL windowed-layout query
`is_windowed`, the display-bounds query, the render output size) are
gathered in `sc_externals` and passed explicitly. -/

/-- A decoded video frame (`AVFrame`): its pixel dimensions plus an abstract
payload identifying the frame contents. -/
structure AVFrame where
  width : Nat
  height : Nat
  payload : Nat
deriving DecidableEq, Repr

/-- External values read by `screen.c` during an operation:
`is_windowed screen` (SDL window flags), `get_preferred_display_bounds`
(`none` = query failed), and `sc_sdl_get_render_output_size`. -/
structure sc_externals where
  windowed : Bool
  display_bounds : Option sc_size
  render_size : sc_size
deriving DecidableEq, Repr

/-- The `struct sc_screen` fields referenced by the claims, plus observation
counters for the external effects (posted new-frame events, fps-counter
increments, render calls). -/
structure sc_screen where
  /-- the single-slot frame buffer `screen->fb` (its held frame) -/
  fb : Option AVFrame
  /-- fps-counter skipped-frame count (`sc_fps_counter_add_skipped_frame`) -/
  skipped : Nat
  /-- fps-counter rendered-frame count (`sc_fps_counter_add_rendered_frame`) -/
  rendered : Nat
  /-- number of posted, not yet consumed `SC_EVENT_NEW_FRAME` events -/
  new_frame_events : Nat
  /-- number of `sc_screen_render` calls (presentations) -/
  render_count : Nat
  paused : Bool
  /-- the live frame `screen->frame` -/
  frame : AVFrame
  /-- the retained resume frame `screen->resume_frame` (NULL = `none`) -/
  resume_frame : Option AVFrame
  has_frame : Bool
  has_video_window : Bool
  frame_size : sc_size
  content_size : sc_size
  windowed_content_size : sc_size
  resize_pending : Bool
  /-- the current SDL window size (`sc_sdl_get_window_size`) -/
  window_size : sc_size
  /-- the content rectangle `screen->rect` -/
  rect : SDL_Rect
  orientation : sc_orientation
  /-- requested startup width `screen->req.width` (0 = unspecified) -/
  req_width : Nat
  /-- requested startup height `screen->req.height` (0 = unspecified) -/
  req_height : Nat
  /-- the debug-only `screen->open` flag -/
  screen_open : Bool
deriving DecidableEq, Repr

/-- Modelled from the spec: `sc_frame_buffer_push` (`frame_buffer.c` is not
part of the provided sources).  The spec: push "stores the new frame into the
slot, and if a not-yet-consumed frame was already present, reports
`was_previous_overwritten=true`"; allocation failure (the only failure mode)
is outside the model.  Returns the new slot contents and the
`previous_skipped` flag. -/
def sc_frame_buffer_push (fb : Option AVFrame) (frame : AVFrame) :
    Option AVFrame × Bool :=
  (some frame, fb.isSome)

/-- Embedding of `sc_screen_frame_sink_push` (screen.c): push into the frame buffer; on
`previous_skipped` count a skipped frame and post no event (the pending
`SC_EVENT_NEW_FRAME` will consume this frame instead), otherwise post
`SC_EVENT_NEW_FRAME`. -/
def sc_screen_frame_sink_push (s : sc_screen) (frame : AVFrame) : sc_screen :=
  let r := sc_frame_buffer_push s.fb frame
  let s1 := { s with fb := r.1 }
  if r.2 then
    { s1 with skipped := s1.skipped + 1 }
  else
    { s1 with new_frame_events := s1.new_frame_events + 1 }

/-- A sequence of producer pushes with no intervening consume. -/
def sc_screen_frame_sink_push_seq (s : sc_screen) (frames : List AVFrame) :
    sc_screen :=
  frames.foldl sc_screen_frame_sink_push s

/-- Embedding of `resize_for_content` (screen.c): scale the current window size by the
content-size change, then re-optimize within the display bounds and set the
window size to the result. -/
def resize_for_content (s : sc_screen) (ext : sc_externals)
    (old_content_size new_content_size : sc_size) : sc_screen :=
  let window_size := s.window_size
  let target : sc_size :=
    ⟨window_size.width * new_content_size.width / old_content_size.width,
     window_size.height * new_content_size.height / old_content_size.height⟩
  { s with window_size :=
      get_optimal_size target new_content_size true ext.display_bounds }

/-- Embedding of `set_content_size` (screen.c): when windowed, resize immediately; when
not windowed and no resize is pending yet, record the current (pre-change)
content size and mark a resize pending; always store the new content size. -/
def set_content_size (s : sc_screen) (ext : sc_externals)
    (new_content_size : sc_size) : sc_screen :=
  let s1 :=
    if ext.windowed then
      resize_for_content s ext s.content_size new_content_size
    else if s.resize_pending = false then
      { s with windowed_content_size := s.content_size,
               resize_pending := true }
    else
      s
  { s1 with content_size := new_content_size }

/-- A sequence of `set_content_size` calls made while not windowed. -/
def set_content_size_seq (s : sc_screen) (ext : sc_externals)
    (sizes : List sc_size) : sc_screen :=
  sizes.foldl (fun st c => set_content_size st ext c) s

/-- Embedding of `apply_pending_resize` (screen.c): on return to windowed layout, if a
resize is pending, resize using the recorded windowed content size as the old
basis and the current content size as target, then clear the pending flag. -/
def apply_pending_resize (s : sc_screen) (ext : sc_externals) : sc_screen :=
  if s.resize_pending then
    { resize_for_content s ext s.windowed_content_size s.content_size with
      resize_pending := false }
  else
    s

/-- Embedding of `sc_screen_render` (screen.c): optionally recompute the content rect,
then clear/copy/present (observed as a render-count increment; the SDL
texture calls are external). -/
def sc_screen_render (s : sc_screen) (ext : sc_externals)
    (update_content_rect : Bool) : sc_screen :=
  let s1 :=
    if update_content_rect then
      { s with rect :=
          sc_screen_update_content_rect ext.render_size s.content_size }
    else
      s
  { s1 with render_count := s1.render_count + 1 }

/-- Embedding of `sc_screen_show_initial_window` (screen.c): size the window via
`get_initial_optimal_size`, position and show it (external), and compute the
initial content rect. -/
def sc_screen_show_initial_window (s : sc_screen) (ext : sc_externals) :
    sc_screen :=
  let ws := get_initial_optimal_size s.content_size s.req_width s.req_height
      ext.display_bounds
  let s1 := { s with window_size := ws }
  { s1 with rect :=
      sc_screen_update_content_rect ext.render_size s1.content_size }

/-- Embedding of `sc_screen_apply_frame` (screen.c): count a rendered frame; on a frame
dimension change, reprepare the texture (external), store the new frame size,
recompute the content size (routing through `set_content_size` except on the
very first frame) and the content rect; on the very first frame show the
window; finally render without recomputing the rect.  Texture allocation
failures are outside the model. -/
def sc_screen_apply_frame (s : sc_screen) (ext : sc_externals) : sc_screen :=
  let s1 := { s with rendered := s.rendered + 1 }
  let new_frame_size : sc_size := ⟨s1.frame.width, s1.frame.height⟩
  let s2 :=
    if s1.has_frame = false ∨ s1.frame_size ≠ new_frame_size then
      let sA := { s1 with frame_size := new_frame_size }
      let new_content_size := get_oriented_size new_frame_size sA.orientation
      if sA.has_frame then
        let sB := set_content_size sA ext new_content_size
        { sB with rect :=
            sc_screen_update_content_rect ext.render_size sB.content_size }
      else
        -- this is the first frame
        { sA with has_frame := true, content_size := new_content_size }
    else
      s1
  let s3 :=
    if s2.has_video_window = false then
      sc_screen_show_initial_window { s2 with has_video_window := true } ext
    else
      s2
  sc_screen_render s3 ext false

/-- Embedding of `sc_screen_set_paused` (screen.c): resuming while not paused is a no-op;
otherwise, if the screen was paused and a resume frame exists, the resume
frame replaces the live frame, the slot is cleared and the frame is applied
immediately (even on a re-pause); finally the paused flag is set to the
requested value. -/
def sc_screen_set_paused (s : sc_screen) (ext : sc_externals)
    (paused : Bool) : sc_screen :=
  if paused = false ∧ s.paused = false then
    -- nothing to do
    s
  else
    let s1 :=
      match s.paused, s.resume_frame with
      | true, some f =>
          sc_screen_apply_frame { s with frame := f, resume_frame := none } ext
      | _, _ => s
    { s1 with paused := paused }

/-- Embedding of `enum AVPixelFormat` (ffmpeg), abstracted: the expected planar format and
everything else. -/
inductive AVPixelFormat where
  | AV_PIX_FMT_YUV420P
  | other : Nat → AVPixelFormat
deriving DecidableEq, Repr

/-- Embedding of `sc_screen_frame_sink_open` (screen.c): the pixel format is only checked
by `assert(ctx->pix_fmt == AV_PIX_FMT_YUV420P)` (compiled out with
`NDEBUG`; never a `return false`).  The function returns false exactly when
a dimension is non-positive or exceeds `0xFFFF`; the only state mutation
(the debug `screen->open = true`) happens after that check.  `width` and
`height` are the `int` fields of `AVCodecContext`. -/
def sc_screen_frame_sink_open (s : sc_screen) (pix_fmt : AVPixelFormat)
    (width height : Int) : Bool × sc_screen :=
  if width ≤ 0 ∨ width > 0xFFFF ∨ height ≤ 0 ∨ height > 0xFFFF then
    (false, s)
  else
    (true, { s with screen_open := true })

/-- A concrete freshly initialized screen state (used to instantiate the
theorems below on closed inputs). -/
def s_empty : sc_screen :=
  ⟨none, 0, 0, 0, 0, false, ⟨1, 1, 0⟩, none, false, false, ⟨1, 1⟩, ⟨1, 1⟩,
   ⟨1, 1⟩, false, ⟨1, 1⟩, ⟨0, 0, 1, 1⟩, .SC_ORIENTATION_0, 0, 0, false⟩

/-- A concrete paused screen state holding a resume frame. -/
def s_paused : sc_screen :=
  { s_empty with paused := true, resume_frame := some ⟨2, 2, 5⟩,
                 has_frame := true, has_video_window := true,
                 frame_size := ⟨2, 2⟩, content_size := ⟨2, 2⟩ }

/-- Concrete external inputs: windowed layout. -/
def ext_windowed : sc_externals := ⟨true, none, ⟨1, 1⟩⟩

/-- Concrete external inputs: non-windowed (fullscreen) layout. -/
def ext_fullscreen : sc_externals := ⟨false, none, ⟨1, 1⟩⟩

/-! Helper lemmas for the geometry engine -/

/-- In the keep-width branch the recomputed height is strictly below the
available height: the condition `C.w * R.h > C.h * R.w` makes
`R.w * C.h / C.w < R.h` (floor division by a positive `C.w`). -/
lemma content_rect_h_lt (R C : sc_size) (hw : 0 < C.width)
    (hkeep : C.width * R.height > C.height * R.width) :
    R.width * C.height / C.width < R.height := by
  rw [Nat.div_lt_iff_lt_mul hw]
  calc R.width * C.height = C.height * R.width := Nat.mul_comm _ _
    _ < C.width * R.height := hkeep
    _ = R.height * C.width := Nat.mul_comm _ _

/-- In the keep-height branch the recomputed width fits in the available
width: `¬(C.w * R.h > C.h * R.w)` makes `R.h * C.w / C.h ≤ R.w`. -/
lemma content_rect_w_le (R C : sc_size) (hh : 0 < C.height)
    (hnkeep : ¬(C.width * R.height > C.height * R.width)) :
    R.height * C.width / C.height ≤ R.width := by
  have h1 : R.height * C.width ≤ C.height * R.width := by
    calc R.height * C.width = C.width * R.height := Nat.mul_comm _ _
      _ ≤ C.height * R.width := Nat.le_of_not_lt hnkeep
  calc R.height * C.width / C.height ≤ C.height * R.width / C.height :=
        Nat.div_le_div_right h1
    _ = R.width := Nat.mul_div_cancel_left _ hh

/-- C7: `is_optimal_size W C` is true iff one dimension of `W` is exactly
recovered from the other by floor division through the content aspect ratio;
in particular it is true for `W = 800×450` and `C = 1920×1080`. -/
theorem is_optimal_size_iff_cross (W C : sc_size) (_hw : 0 < C.width)
    (_hh : 0 < C.height) :
    (is_optimal_size W C = true ↔
      (W.height = W.width * C.height / C.width ∨
       W.width = W.height * C.width / C.height)) ∧
    is_optimal_size ⟨800, 450⟩ ⟨1920, 1080⟩ = true := by
  refine ⟨?_, by decide⟩
  simp [is_optimal_size]

/-- Concrete instantiation of `is_optimal_size_iff_cross` at the scenario
window 800×450, content 1920×1080. -/
theorem is_optimal_size_iff_cross_witness :
    0 < (1920 : Nat) ∧ 0 < (1080 : Nat) ∧
    is_optimal_size ⟨800, 450⟩ ⟨1920, 1080⟩ = true :=
  ⟨by decide, by decide,
   (is_optimal_size_iff_cross ⟨800, 450⟩ ⟨1920, 1080⟩ (by decide)
     (by decide)).2⟩

/-- C2: without display-bounds clamping, `get_optimal_size` never exceeds the
current size in either dimension. -/
theorem get_optimal_size_within_current (S C : sc_size)
    (db : Option sc_size) :
    (get_optimal_size S C false db).width ≤ S.width ∧
    (get_optimal_size S C false db).height ≤ S.height := by
  unfold get_optimal_size
  split
  · exact ⟨Nat.le_refl _, Nat.le_refl _⟩
  next hC =>
    push_neg at hC
    obtain ⟨hw, hh⟩ := hC
    have hw' : 0 < C.width := Nat.pos_of_ne_zero hw
    have hh' : 0 < C.height := Nat.pos_of_ne_zero hh
    simp only
    split
    · exact ⟨Nat.le_refl _, Nat.le_refl _⟩
    · split
      next hkeep =>
        refine ⟨Nat.le_refl _, Nat.le_of_lt ?_⟩
        have h := content_rect_h_lt S C hw' hkeep
        rwa [Nat.mul_comm S.width C.height] at h
      next hnkeep =>
        refine ⟨?_, Nat.le_refl _⟩
        have h := content_rect_w_le S C hh' hnkeep
        rwa [Nat.mul_comm S.height C.width] at h

/-- C3: for positive content dimensions, the content rect is contained in
`(0,0,R.width,R.height)`; when the render size is already optimal it equals
the full output; its width/height agree with `get_optimal_size` (same
keep-width rule and floor division, no display clamping); and each offset is
`floor((output - content) / 2)` (0 on the constrained axis). -/
theorem update_content_rect_contained_centered (R C : sc_size)
    (hw : 0 < C.width) (hh : 0 < C.height) :
    (0 ≤ (sc_screen_update_content_rect R C).x ∧
     0 ≤ (sc_screen_update_content_rect R C).y ∧
     (sc_screen_update_content_rect R C).x +
       (sc_screen_update_content_rect R C).w ≤ (R.width : Int) ∧
     (sc_screen_update_content_rect R C).y +
       (sc_screen_update_content_rect R C).h ≤ (R.height : Int)) ∧
    (is_optimal_size R C = true →
      sc_screen_update_content_rect R C =
        ⟨0, 0, (R.width : Int), (R.height : Int)⟩) ∧
    ((sc_screen_update_content_rect R C).w =
       ((get_optimal_size R C false none).width : Int) ∧
     (sc_screen_update_content_rect R C).h =
       ((get_optimal_size R C false none).height : Int)) ∧
    ((sc_screen_update_content_rect R C).x =
       ((R.width : Int) - (sc_screen_update_content_rect R C).w) / 2 ∧
     (sc_screen_update_content_rect R C).y =
       ((R.height : Int) - (sc_screen_update_content_rect R C).h) / 2) := by
  have hguard : ¬(C.width = 0 ∨ C.height = 0) := by omega
  by_cases hio : is_optimal_size R C = true
  · have hrect : sc_screen_update_content_rect R C =
        ⟨0, 0, (R.width : Int), (R.height : Int)⟩ := by
      simp [sc_screen_update_content_rect, hio]
    have hopt : get_optimal_size R C false none = R := by
      simp [get_optimal_size, hguard, hio]
    rw [hrect, hopt]
    dsimp only
    refine ⟨⟨le_refl _, le_refl _, by omega, by omega⟩, fun _ => rfl,
      ⟨rfl, rfl⟩, by constructor <;> omega⟩
  · rw [Bool.not_eq_true] at hio
    by_cases hkeep : C.width * R.height > C.height * R.width
    · have hlt : R.width * C.height / C.width < R.height :=
        content_rect_h_lt R C hw hkeep
      have hrect : sc_screen_update_content_rect R C =
          ⟨0, (((R.height - R.width * C.height / C.width) / 2 : Nat) : Int),
           (R.width : Int),
           ((R.width * C.height / C.width : Nat) : Int)⟩ := by
        simp [sc_screen_update_content_rect, hio, hkeep]
      have hopt : get_optimal_size R C false none =
          ⟨R.width, C.height * R.width / C.width⟩ := by
        simp [get_optimal_size, hguard, hio, hkeep]
      rw [hrect, hopt]
      dsimp only
      refine ⟨⟨le_refl _, Int.natCast_nonneg _, by omega, ?_⟩,
        fun hcontra => by rw [hio] at hcontra; exact absurd hcontra (by simp),
        ⟨rfl, ?_⟩, ⟨by omega, ?_⟩⟩
      · have hnat : (R.height - R.width * C.height / C.width) / 2 +
            R.width * C.height / C.width ≤ R.height := by omega
        exact_mod_cast hnat
      · exact congrArg _ (congrArg (· / C.width) (Nat.mul_comm _ _))
      · rw [Int.natCast_div, Int.natCast_sub hlt.le]
        norm_num
    · have hle : R.height * C.width / C.height ≤ R.width :=
        content_rect_w_le R C hh hkeep
      have hrect : sc_screen_update_content_rect R C =
          ⟨(((R.width - R.height * C.width / C.height) / 2 : Nat) : Int), 0,
           ((R.height * C.width / C.height : Nat) : Int),
           (R.height : Int)⟩ := by
        simp [sc_screen_update_content_rect, hio, hkeep]
      have hopt : get_optimal_size R C false none =
          ⟨C.width * R.height / C.height, R.height⟩ := by
        simp [get_optimal_size, hguard, hio, hkeep]
      rw [hrect, hopt]
      dsimp only
      refine ⟨⟨Int.natCast_nonneg _, le_refl _, ?_, by omega⟩,
        fun hcontra => by rw [hio] at hcontra; exact absurd hcontra (by simp),
        ⟨?_, rfl⟩, ⟨?_, by omega⟩⟩
      · have hnat : (R.width - R.height * C.width / C.height) / 2 +
            R.height * C.width / C.height ≤ R.width := by omega
        exact_mod_cast hnat
      · exact congrArg _ (congrArg (· / C.height) (Nat.mul_comm _ _))
      · rw [Int.natCast_div, Int.natCast_sub hle]
        norm_num

/-- Concrete instantiation of `update_content_rect_contained_centered` at
render output 100×100, content 2×1 (letterboxed: rect 100×50 at y = 25). -/
theorem update_content_rect_contained_centered_witness :
    0 < (2 : Nat) ∧ 0 < (1 : Nat) ∧
    ((sc_screen_update_content_rect ⟨100, 100⟩ ⟨2, 1⟩).y =
      (((100 : Nat) : Int) -
        (sc_screen_update_content_rect ⟨100, 100⟩ ⟨2, 1⟩).h) / 2) :=
  ⟨by decide, by decide,
   (update_content_rect_contained_centered ⟨100, 100⟩ ⟨2, 1⟩ (by decide)
     (by decide)).2.2.2.2⟩

/-- C4 counterexample: the full drawable round trip (scale to content
coordinates, orient, invert the orientation, scale back to drawable
coordinates) does not recover the original drawable point even for the
identity orientation: with content 2×2, rect (0,0,3,3) and the in-rect point
(1,1), the round trip yields (0,0).  The rect-to-content scaling loses
information, so only the orientation stage is exactly invertible. -/
theorem drawable_round_trip_not_exact :
    (0 < (⟨0, 0, 3, 3⟩ : SDL_Rect).w ∧ 0 < (⟨0, 0, 3, 3⟩ : SDL_Rect).h ∧
     0 < (⟨2, 2⟩ : sc_size).width ∧ 0 < (⟨2, 2⟩ : sc_size).height ∧
     (⟨0, 0, 3, 3⟩ : SDL_Rect).x ≤ 1 ∧
     (1 : Int) < (⟨0, 0, 3, 3⟩ : SDL_Rect).x + (⟨0, 0, 3, 3⟩ : SDL_Rect).w ∧
     (⟨0, 0, 3, 3⟩ : SDL_Rect).y ≤ 1 ∧
     (1 : Int) < (⟨0, 0, 3, 3⟩ : SDL_Rect).y + (⟨0, 0, 3, 3⟩ : SDL_Rect).h) ∧
    sc_content_to_drawable_scale ⟨2, 2⟩ ⟨0, 0, 3, 3⟩
        (sc_frame_coords_transform_inv .SC_ORIENTATION_0
          (((⟨2, 2⟩ : sc_size).width : Int)) (((⟨2, 2⟩ : sc_size).height : Int))
          (sc_screen_convert_drawable_to_frame_coords .SC_ORIENTATION_0
            ⟨2, 2⟩ ⟨0, 0, 3, 3⟩ 1 1)) ≠ (⟨1, 1⟩ : sc_point) := by
  decide

/-- C4 (amended): for every point inside the content rect and every one of
the 8 orientation variants (in particular the identity), mapping the point
through `sc_screen_convert_drawable_to_frame_coords` and back through the
inverse orientation transform recovers — exactly, hence within ±1 per
axis — the scaled point (the drawable point expressed in content
coordinates); the scaling stage itself is not invertible, so the original
drawable point is recovered only up to the scaling quantization. -/
theorem orientation_transform_round_trip (orientation : sc_orientation)
    (C : sc_size) (r : SDL_Rect) (x y : Int)
    (_hrw : 0 < r.w) (_hrh : 0 < r.h)
    (_hcw : 0 < C.width) (_hch : 0 < C.height)
    (_hx1 : r.x ≤ x) (_hx2 : x < r.x + r.w)
    (_hy1 : r.y ≤ y) (_hy2 : y < r.y + r.h) :
    sc_frame_coords_transform_inv orientation (C.width : Int)
        (C.height : Int)
        (sc_screen_convert_drawable_to_frame_coords orientation C r x y) =
      sc_drawable_to_content_scale C r x y := by
  cases orientation <;>
    simp [sc_frame_coords_transform_inv,
      sc_screen_convert_drawable_to_frame_coords, sc_frame_coords_transform,
      sc_drawable_to_content_scale, sc_point.mk.injEq]

/-- Concrete instantiation of `orientation_transform_round_trip` at the 90°
rotation, content 2×2, rect (0,0,3,3), point (1,1). -/
theorem orientation_transform_round_trip_witness :
    ((0 : Int) < 3 ∧ (0 : Int) < 3 ∧ 0 < (2 : Nat) ∧ 0 < (2 : Nat) ∧
     (0 : Int) ≤ 1 ∧ (1 : Int) < 0 + 3 ∧ (0 : Int) ≤ 1 ∧ (1 : Int) < 0 + 3) ∧
    sc_frame_coords_transform_inv .SC_ORIENTATION_90
        (((⟨2, 2⟩ : sc_size).width : Int)) (((⟨2, 2⟩ : sc_size).height : Int))
        (sc_screen_convert_drawable_to_frame_coords .SC_ORIENTATION_90
          ⟨2, 2⟩ ⟨0, 0, 3, 3⟩ 1 1) =
      sc_drawable_to_content_scale ⟨2, 2⟩ ⟨0, 0, 3, 3⟩ 1 1 :=
  ⟨by decide,
   orientation_transform_round_trip .SC_ORIENTATION_90 ⟨2, 2⟩ ⟨0, 0, 3, 3⟩ 1 1
     (by decide) (by decide) (by decide) (by decide)
     (by decide) (by decide) (by decide) (by decide)⟩

/-- C10: `get_initial_optimal_size` has no zero guard on its divisions by the
content dimensions — with a zero content height and only a requested height
the embedding's division-by-zero branch is reached — but whenever both
content dimensions are positive (which the frame-sink open bounds check
guarantees: every accepted dimension lies in (0, 0xFFFF]) that error branch
is unreachable and the checked embedding agrees with the total one. -/
theorem initial_optimal_size_div_safe :
    (∀ db, get_initial_optimal_size_checked ⟨5, 0⟩ 0 7 db = none) ∧
    (∀ C rw rh db, 0 < C.width → 0 < C.height →
      get_initial_optimal_size_checked C rw rh db =
        some (get_initial_optimal_size C rw rh db)) ∧
    (∀ s pf w h, (sc_screen_frame_sink_open s pf w h).1 = true →
      0 < w ∧ w ≤ 0xFFFF ∧ 0 < h ∧ h ≤ 0xFFFF) := by
  refine ⟨fun db => by simp [get_initial_optimal_size_checked], ?_, ?_⟩
  · intro C rw rh db hw hh
    unfold get_initial_optimal_size_checked
    split
    · unfold get_initial_optimal_size
      split
      · rfl
      · omega
    · split
      · omega
      · split
        · omega
        · rfl
  · intro s pf w h hopen
    unfold sc_screen_frame_sink_open at hopen
    split at hopen
    · simp at hopen
    · next hcond => omega

/-- Concrete instantiation of `initial_optimal_size_div_safe`: content
1920×1080, only a requested height 600. -/
theorem initial_optimal_size_div_safe_witness :
    0 < (1920 : Nat) ∧ 0 < (1080 : Nat) ∧
    get_initial_optimal_size_checked ⟨1920, 1080⟩ 0 600 none =
      some (get_initial_optimal_size ⟨1920, 1080⟩ 0 600 none) :=
  ⟨by decide, by decide,
   initial_optimal_size_div_safe.2.1 ⟨1920, 1080⟩ 0 600 none (by decide)
     (by decide)⟩

/-- C8 counterexample: a frame-sink open with an unexpected pixel format but
valid dimensions is accepted, not rejected: the pixel format is only checked
by a debug assertion (`assert(ctx->pix_fmt == AV_PIX_FMT_YUV420P)`), never
by a `return false`. -/
theorem frame_sink_open_format_not_rejected :
    AVPixelFormat.other 0 ≠ AVPixelFormat.AV_PIX_FMT_YUV420P ∧
    ∃ s : sc_screen,
      (sc_screen_frame_sink_open s (AVPixelFormat.other 0) 100 100).1 =
        true := by
  constructor
  · decide
  · exact ⟨⟨none, 0, 0, 0, 0, false, ⟨1, 1, 0⟩, none, false, false, ⟨1, 1⟩,
      ⟨1, 1⟩, ⟨1, 1⟩, false, ⟨1, 1⟩, ⟨0, 0, 1, 1⟩, .SC_ORIENTATION_0, 0, 0,
      false⟩, by decide⟩

/-- C8 (amended): the frame-sink open rejects (returns false) exactly when a
dimension is non-positive or exceeds the 16-bit bound 0xFFFF — the pixel
format is checked only by a debug-time assertion, not by a rejection — and
on any rejection no screen state is mutated. -/
theorem frame_sink_open_rejects_iff_bad_dims :
    (∀ (s : sc_screen) (pf : AVPixelFormat) (w h : Int),
      (sc_screen_frame_sink_open s pf w h).1 = false ↔
        (w ≤ 0 ∨ w > 0xFFFF ∨ h ≤ 0 ∨ h > 0xFFFF)) ∧
    (∀ (s : sc_screen) (pf : AVPixelFormat) (w h : Int),
      (sc_screen_frame_sink_open s pf w h).1 = false →
        (sc_screen_frame_sink_open s pf w h).2 = s) := by
  constructor
  · intro s pf w h
    unfold sc_screen_frame_sink_open
    split
    · next hcond => simp <;> omega
    · next hcond => simp <;> omega
  · intro s pf w h hrej
    unfold sc_screen_frame_sink_open at hrej ⊢
    split at hrej
    · next hcond => simp [hcond]
    · simp at hrej

/-- Concrete instantiation of `frame_sink_open_rejects_iff_bad_dims`: a
0×100 frame is rejected and the state is untouched. -/
theorem frame_sink_open_rejects_iff_bad_dims_witness :
    ((sc_screen_frame_sink_open
        ⟨none, 0, 0, 0, 0, false, ⟨1, 1, 0⟩, none, false, false, ⟨1, 1⟩,
         ⟨1, 1⟩, ⟨1, 1⟩, false, ⟨1, 1⟩, ⟨0, 0, 1, 1⟩, .SC_ORIENTATION_0, 0, 0,
         false⟩ AVPixelFormat.AV_PIX_FMT_YUV420P 0 100).1 = false ↔
      ((0 : Int) ≤ 0 ∨ (0 : Int) > 0xFFFF ∨ (100 : Int) ≤ 0 ∨
        (100 : Int) > 0xFFFF)) ∧
    (sc_screen_frame_sink_open
        ⟨none, 0, 0, 0, 0, false, ⟨1, 1, 0⟩, none, false, false, ⟨1, 1⟩,
         ⟨1, 1⟩, ⟨1, 1⟩, false, ⟨1, 1⟩, ⟨0, 0, 1, 1⟩, .SC_ORIENTATION_0, 0, 0,
         false⟩ AVPixelFormat.AV_PIX_FMT_YUV420P 0 100).2 =
      ⟨none, 0, 0, 0, 0, false, ⟨1, 1, 0⟩, none, false, false, ⟨1, 1⟩,
       ⟨1, 1⟩, ⟨1, 1⟩, false, ⟨1, 1⟩, ⟨0, 0, 1, 1⟩, .SC_ORIENTATION_0, 0, 0,
       false⟩ :=
  ⟨frame_sink_open_rejects_iff_bad_dims.1 _ AVPixelFormat.AV_PIX_FMT_YUV420P
      0 100,
   frame_sink_open_rejects_iff_bad_dims.2 _ AVPixelFormat.AV_PIX_FMT_YUV420P
      0 100 (by decide)⟩

/-! Frame slot coalescing (C1) -/

/-- One producer push preserves the coalescing invariant: at most one
pending new-frame notification, and none when the slot is empty. -/
lemma push_preserves_coalesced (s : sc_screen) (f : AVFrame)
    (h1 : s.new_frame_events ≤ 1)
    (h2 : s.fb = none → s.new_frame_events = 0) :
    (sc_screen_frame_sink_push s f).new_frame_events ≤ 1 ∧
    ((sc_screen_frame_sink_push s f).fb = none →
      (sc_screen_frame_sink_push s f).new_frame_events = 0) := by
  cases hfb : s.fb <;>
    simp_all [sc_screen_frame_sink_push, sc_frame_buffer_push]

/-- Pushing any list of frames from a state satisfying the coalescing
invariant leaves at most one pending notification. -/
lemma push_seq_coalesced (frames : List AVFrame) :
    ∀ s : sc_screen, s.new_frame_events ≤ 1 →
      (s.fb = none → s.new_frame_events = 0) →
      (sc_screen_frame_sink_push_seq s frames).new_frame_events ≤ 1 := by
  induction frames with
  | nil => intro s h1 _; exact h1
  | cons f rest ih =>
      intro s h1 h2
      have h := push_preserves_coalesced s f h1 h2
      show (sc_screen_frame_sink_push_seq
          (sc_screen_frame_sink_push s f) rest).new_frame_events ≤ 1
      exact ih _ h.1 h.2

/-- C1: when the slot already holds an unconsumed frame, a push increments
the skipped counter and posts no notification; when it does not, a push
posts exactly one notification and skips nothing; consequently a sequence
of pushes from a drained state leaves at most one pending notification. -/
theorem frame_sink_push_coalesces :
    (∀ (s : sc_screen) (f : AVFrame), s.fb.isSome = true →
      (sc_screen_frame_sink_push s f).skipped = s.skipped + 1 ∧
      (sc_screen_frame_sink_push s f).new_frame_events =
        s.new_frame_events) ∧
    (∀ (s : sc_screen) (f : AVFrame), s.fb = none →
      (sc_screen_frame_sink_push s f).skipped = s.skipped ∧
      (sc_screen_frame_sink_push s f).new_frame_events =
        s.new_frame_events + 1) ∧
    (∀ (s : sc_screen) (frames : List AVFrame),
      s.fb = none → s.new_frame_events = 0 →
      (sc_screen_frame_sink_push_seq s frames).new_frame_events ≤ 1) := by
  refine ⟨?_, ?_, ?_⟩
  · intro s f hfb
    cases hfb' : s.fb <;>
      simp_all [sc_screen_frame_sink_push, sc_frame_buffer_push]
  · intro s f hfb
    simp [sc_screen_frame_sink_push, sc_frame_buffer_push, hfb]
  · intro s frames hfb he
    exact push_seq_coalesced frames s (by omega) (fun _ => he)

/-- Concrete instantiation of `frame_sink_push_coalesces`: three pushes with
no consume from a fresh state leave at most one pending notification. -/
theorem frame_sink_push_coalesces_witness :
    s_empty.fb = none ∧ s_empty.new_frame_events = 0 ∧
    (sc_screen_frame_sink_push_seq s_empty
        [⟨1, 1, 1⟩, ⟨1, 1, 2⟩, ⟨1, 1, 3⟩]).new_frame_events ≤ 1 :=
  ⟨rfl, rfl, frame_sink_push_coalesces.2.2 s_empty _ rfl rfl⟩

/-! Pending-resize bookkeeping (C5) -/

/-- A non-windowed `set_content_size` sequence from a pending state never
touches the recorded windowed content size and keeps the pending flag. -/
lemma set_content_size_seq_keeps_record (sizes : List sc_size)
    (ext : sc_externals) (hw : ext.windowed = false) :
    ∀ s : sc_screen, s.resize_pending = true →
      (set_content_size_seq s ext sizes).windowed_content_size =
        s.windowed_content_size ∧
      (set_content_size_seq s ext sizes).resize_pending = true := by
  induction sizes with
  | nil => intro s hp; exact ⟨rfl, hp⟩
  | cons c rest ih =>
      intro s hp
      have hstep : (set_content_size s ext c).windowed_content_size =
            s.windowed_content_size ∧
          (set_content_size s ext c).resize_pending = true := by
        simp [set_content_size, hw, hp]
      have h := ih (set_content_size s ext c) hstep.2
      exact ⟨h.1.trans hstep.1, h.2⟩

/-- C5: while not windowed, the first `set_content_size` with no resize
pending records the pre-transition content size and sets the pending flag;
every later call while pending leaves the record untouched (individually and
over any sequence); `apply_pending_resize` resizes from the recorded size as
old basis to the current content size and clears the flag; a second
`apply_pending_resize` is a no-op, so the flag is consumed exactly once. -/
theorem pending_resize_records_original :
    (∀ (s : sc_screen) (ext : sc_externals) (c : sc_size),
      ext.windowed = false → s.resize_pending = false →
      (set_content_size s ext c).windowed_content_size = s.content_size ∧
      (set_content_size s ext c).resize_pending = true ∧
      (set_content_size s ext c).content_size = c) ∧
    (∀ (s : sc_screen) (ext : sc_externals) (c : sc_size),
      ext.windowed = false → s.resize_pending = true →
      (set_content_size s ext c).windowed_content_size =
        s.windowed_content_size ∧
      (set_content_size s ext c).resize_pending = true ∧
      (set_content_size s ext c).content_size = c) ∧
    (∀ (s : sc_screen) (ext : sc_externals) (sizes : List sc_size),
      ext.windowed = false → s.resize_pending = true →
      (set_content_size_seq s ext sizes).windowed_content_size =
        s.windowed_content_size) ∧
    (∀ (s : sc_screen) (ext : sc_externals),
      s.resize_pending = true →
      apply_pending_resize s ext =
        { resize_for_content s ext s.windowed_content_size s.content_size
          with resize_pending := false }) ∧
    (∀ (s : sc_screen) (ext : sc_externals),
      apply_pending_resize (apply_pending_resize s ext) ext =
        apply_pending_resize s ext) := by
  refine ⟨?_, ?_, ?_, ?_, ?_⟩
  · intro s ext c hw hp
    simp [set_content_size, hw, hp]
  · intro s ext c hw hp
    simp [set_content_size, hw, hp]
  · intro s ext sizes hw hp
    exact (set_content_size_seq_keeps_record sizes ext hw s hp).1
  · intro s ext hp
    simp [apply_pending_resize, hp]
  · intro s ext
    by_cases hp : s.resize_pending
    · have h1 : apply_pending_resize s ext =
          { resize_for_content s ext s.windowed_content_size s.content_size
            with resize_pending := false } := by
        simp [apply_pending_resize, hp]
      rw [h1]
      simp [apply_pending_resize, resize_for_content]
    · have h1 : apply_pending_resize s ext = s := by
        simp [apply_pending_resize, hp]
      rw [h1, h1]

/-- Concrete instantiation of `pending_resize_records_original`: a content
change while fullscreen records the old content size and marks pending. -/
theorem pending_resize_records_original_witness :
    ext_fullscreen.windowed = false ∧ s_empty.resize_pending = false ∧
    ((set_content_size s_empty ext_fullscreen ⟨7, 9⟩).windowed_content_size =
        s_empty.content_size ∧
     (set_content_size s_empty ext_fullscreen ⟨7, 9⟩).resize_pending = true ∧
     (set_content_size s_empty ext_fullscreen ⟨7, 9⟩).content_size =
        ⟨7, 9⟩) :=
  ⟨rfl, rfl,
   pending_resize_records_original.1 s_empty ext_fullscreen ⟨7, 9⟩ rfl rfl⟩

/-! Pause/resume (C6, C9) -/

/-! Per-field preservation lemmas: `sc_screen_render`,
`sc_screen_show_initial_window` and `set_content_size` never touch the
live-frame pointer, the resume slot or the paused flag; only
`sc_screen_render` increments the render count. -/

lemma sc_screen_render_frame (s : sc_screen) (ext : sc_externals) (u : Bool) :
    (sc_screen_render s ext u).frame = s.frame := by
  unfold sc_screen_render; split <;> rfl

lemma sc_screen_render_resume (s : sc_screen) (ext : sc_externals)
    (u : Bool) :
    (sc_screen_render s ext u).resume_frame = s.resume_frame := by
  unfold sc_screen_render; split <;> rfl

lemma sc_screen_render_paused (s : sc_screen) (ext : sc_externals)
    (u : Bool) :
    (sc_screen_render s ext u).paused = s.paused := by
  unfold sc_screen_render; split <;> rfl

lemma sc_screen_render_count (s : sc_screen) (ext : sc_externals) (u : Bool) :
    (sc_screen_render s ext u).render_count = s.render_count + 1 := by
  unfold sc_screen_render; split <;> rfl

lemma sc_screen_render_rendered (s : sc_screen) (ext : sc_externals)
    (u : Bool) :
    (sc_screen_render s ext u).rendered = s.rendered := by
  unfold sc_screen_render; split <;> rfl

lemma sc_screen_show_initial_window_frame (s : sc_screen)
    (ext : sc_externals) :
    (sc_screen_show_initial_window s ext).frame = s.frame := rfl

lemma sc_screen_show_initial_window_resume (s : sc_screen)
    (ext : sc_externals) :
    (sc_screen_show_initial_window s ext).resume_frame = s.resume_frame := rfl

lemma sc_screen_show_initial_window_paused (s : sc_screen)
    (ext : sc_externals) :
    (sc_screen_show_initial_window s ext).paused = s.paused := rfl

lemma sc_screen_show_initial_window_count (s : sc_screen)
    (ext : sc_externals) :
    (sc_screen_show_initial_window s ext).render_count = s.render_count := rfl

lemma sc_screen_show_initial_window_rendered (s : sc_screen)
    (ext : sc_externals) :
    (sc_screen_show_initial_window s ext).rendered = s.rendered := rfl

lemma set_content_size_frame (s : sc_screen) (ext : sc_externals)
    (c : sc_size) :
    (set_content_size s ext c).frame = s.frame := by
  unfold set_content_size resize_for_content; dsimp only
  (repeat' split) <;> rfl

lemma set_content_size_resume (s : sc_screen) (ext : sc_externals)
    (c : sc_size) :
    (set_content_size s ext c).resume_frame = s.resume_frame := by
  unfold set_content_size resize_for_content; dsimp only
  (repeat' split) <;> rfl

lemma set_content_size_paused (s : sc_screen) (ext : sc_externals)
    (c : sc_size) :
    (set_content_size s ext c).paused = s.paused := by
  unfold set_content_size resize_for_content; dsimp only
  (repeat' split) <;> rfl

lemma set_content_size_count (s : sc_screen) (ext : sc_externals)
    (c : sc_size) :
    (set_content_size s ext c).render_count = s.render_count := by
  unfold set_content_size resize_for_content; dsimp only
  (repeat' split) <;> rfl

lemma set_content_size_rendered (s : sc_screen) (ext : sc_externals)
    (c : sc_size) :
    (set_content_size s ext c).rendered = s.rendered := by
  unfold set_content_size resize_for_content; dsimp only
  (repeat' split) <;> rfl

lemma apply_frame_frame (s : sc_screen) (ext : sc_externals) :
    (sc_screen_apply_frame s ext).frame = s.frame := by
  unfold sc_screen_apply_frame
  dsimp only
  rw [sc_screen_render_frame]
  repeat' split
  all_goals
    simp only [sc_screen_show_initial_window_frame, set_content_size_frame]

lemma apply_frame_resume (s : sc_screen) (ext : sc_externals) :
    (sc_screen_apply_frame s ext).resume_frame = s.resume_frame := by
  unfold sc_screen_apply_frame
  dsimp only
  rw [sc_screen_render_resume]
  repeat' split
  all_goals
    simp only [sc_screen_show_initial_window_resume, set_content_size_resume]

lemma apply_frame_paused (s : sc_screen) (ext : sc_externals) :
    (sc_screen_apply_frame s ext).paused = s.paused := by
  unfold sc_screen_apply_frame
  dsimp only
  rw [sc_screen_render_paused]
  repeat' split
  all_goals
    simp only [sc_screen_show_initial_window_paused, set_content_size_paused]

lemma apply_frame_count (s : sc_screen) (ext : sc_externals) :
    (sc_screen_apply_frame s ext).render_count = s.render_count + 1 := by
  unfold sc_screen_apply_frame
  dsimp only
  rw [sc_screen_render_count]
  repeat' split
  all_goals
    simp only [sc_screen_show_initial_window_count, set_content_size_count]

lemma apply_frame_rendered (s : sc_screen) (ext : sc_externals) :
    (sc_screen_apply_frame s ext).rendered = s.rendered + 1 := by
  unfold sc_screen_apply_frame
  dsimp only
  rw [sc_screen_render_rendered]
  repeat' split
  all_goals
    simp only [sc_screen_show_initial_window_rendered,
      set_content_size_rendered]

/-- Lemma: `sc_screen_apply_frame` never touches the live-frame pointer, the resume
slot or the paused flag, and performs exactly one render and one
rendered-frame count. -/
lemma apply_frame_preserves_pause_fields (s : sc_screen)
    (ext : sc_externals) :
    (sc_screen_apply_frame s ext).frame = s.frame ∧
    (sc_screen_apply_frame s ext).resume_frame = s.resume_frame ∧
    (sc_screen_apply_frame s ext).paused = s.paused ∧
    (sc_screen_apply_frame s ext).render_count = s.render_count + 1 ∧
    (sc_screen_apply_frame s ext).rendered = s.rendered + 1 :=
  ⟨apply_frame_frame s ext, apply_frame_resume s ext,
   apply_frame_paused s ext, apply_frame_count s ext,
   apply_frame_rendered s ext⟩

/-- C6: a `set_paused` call while paused with a resume frame present —
whether re-pausing or resuming — moves the resume frame into the live frame,
clears the resume slot, presents it exactly once (one render), and leaves
the paused flag equal to the requested value. -/
theorem set_paused_refreshes_resume_frame (s : sc_screen)
    (ext : sc_externals) (p : Bool) (f : AVFrame)
    (hp : s.paused = true) (hr : s.resume_frame = some f) :
    (sc_screen_set_paused s ext p).frame = f ∧
    (sc_screen_set_paused s ext p).resume_frame = none ∧
    (sc_screen_set_paused s ext p).render_count = s.render_count + 1 ∧
    (sc_screen_set_paused s ext p).paused = p := by
  have hcond : ¬(p = false ∧ s.paused = false) := by simp [hp]
  have happly := apply_frame_preserves_pause_fields
      { s with frame := f, resume_frame := none } ext
  simp only [sc_screen_set_paused, hcond, if_false, hp, hr]
  simp_all

/-- Concrete instantiation of `set_paused_refreshes_resume_frame`: resuming
a paused screen holding resume frame ⟨2,2,5⟩. -/
theorem set_paused_refreshes_resume_frame_witness :
    s_paused.paused = true ∧ s_paused.resume_frame = some ⟨2, 2, 5⟩ ∧
    ((sc_screen_set_paused s_paused ext_windowed false).frame = ⟨2, 2, 5⟩ ∧
     (sc_screen_set_paused s_paused ext_windowed false).resume_frame =
        none ∧
     (sc_screen_set_paused s_paused ext_windowed false).render_count =
        s_paused.render_count + 1 ∧
     (sc_screen_set_paused s_paused ext_windowed false).paused = false) :=
  ⟨rfl, rfl,
   set_paused_refreshes_resume_frame s_paused ext_windowed false ⟨2, 2, 5⟩
     rfl rfl⟩

/-- C9: requesting resume while not paused is a complete no-op: the entire
screen state (every field) is returned unchanged and no render occurs. -/
theorem set_paused_false_noop (s : sc_screen) (ext : sc_externals)
    (h : s.paused = false) :
    sc_screen_set_paused s ext false = s := by
  simp [sc_screen_set_paused, h]

/-- Concrete instantiation of `set_paused_false_noop` on the fresh state. -/
theorem set_paused_false_noop_witness :
    s_empty.paused = false ∧
    sc_screen_set_paused s_empty ext_windowed false = s_empty :=
  ⟨rfl, set_paused_false_noop s_empty ext_windowed rfl⟩

end Scrcpy
